import Mathlib

/-!
Verification of the hector benchmark harness.

Shallow embedding of `docs/benchmarks/generic_benchmark.py` and
`docs/benchmarks/behavioral_benchmark.py`, the config-driven
benchmark-and-behavioral test harness.  Python dicts are modelled as
association lists (which preserve insertion order, as Python dicts do),
YAML/JSON values as a tagged tree `Yaml`, floats as rationals, and the
external regex library and subprocess invocations as oracle parameters.
-/

namespace Hector

/-! Python dictionaries as insertion-ordered association lists. -/

/-- Python dict lookup `d.get(k)`: the value at the first (unique)
occurrence of the key, `none` when absent. -/
def pyGet {α : Type} (m : List (String × α)) (k : String) : Option α :=
  match m with
  | [] => none
  | (k', v') :: rest => if k' = k then some v' else pyGet rest k

/-- Python dict assignment `d[k] = v` on an insertion-ordered mapping:
an existing key keeps its position and gets the new value, a fresh key
is appended at the end. -/
def pySet {α : Type} (m : List (String × α)) (k : String) (v : α) :
    List (String × α) :=
  match m with
  | [] => [(k, v)]
  | (k', v') :: rest =>
      if k' = k then (k', v) :: rest else (k', v') :: pySet rest k v

/-- A YAML/JSON value: scalar, mapping (insertion-ordered, like a
Python dict) or sequence.  `scalar` carries a string placeholder for
any non-container Python value. -/
inductive Yaml where
  | scalar : String → Yaml
  | mapping : List (String × Yaml) → Yaml
  | sequence : List Yaml → Yaml

/-! The dotted-path override logic of `GenericBenchmark._set_nested_key`. -/

/-- Core of `GenericBenchmark._set_nested_key`, working on the
already-split key list.  Mirrors
`for key in keys[:-1]: d = d.setdefault(key, {})` followed by
`d[keys[-1]] = value`: intermediate keys are looked up and created as
empty mappings when absent; an intermediate value that is not a mapping
makes the Python code raise (`setdefault` / item assignment on a
non-dict), modelled as `none`.  The empty key list is unreachable from
`set_nested_key` because `str.split` never returns an empty list; it is
mapped to `none` as well (Python would raise `IndexError`). -/
def setNestedKeys (d : List (String × Yaml)) (keys : List String)
    (value : Yaml) : Option (List (String × Yaml)) :=
  match keys with
  | [] => none
  | [k] => some (pySet d k value)
  | k :: rest =>
      match pyGet d k with
      | some (Yaml.mapping sub) =>
          (setNestedKeys sub rest value).map fun sub' =>
            pySet d k (Yaml.mapping sub')
      | some _ => none
      | none =>
          (setNestedKeys [] rest value).map fun sub' =>
            pySet d k (Yaml.mapping sub')

/-- Python `str.split('.')` over the character list: every occurrence
of `'.'` is a separator, empty fields are kept, and the empty string
splits to `[""]` (the result is never empty). -/
def splitDotAux : List Char → List Char → List String
  | [], acc => [String.mk acc.reverse]
  | c :: rest, acc =>
      if c = '.' then String.mk acc.reverse :: splitDotAux rest []
      else splitDotAux rest (c :: acc)

/-- Python `key_path.split('.')`. -/
def splitDot (s : String) : List String :=
  splitDotAux s.data []

/-- `GenericBenchmark._set_nested_key(d, key_path, value)`: split the
dotted path on `.` and walk/create the nested mappings. -/
def set_nested_key (d : List (String × Yaml)) (key_path : String)
    (value : Yaml) : Option (List (String × Yaml)) :=
  setNestedKeys d (splitDot key_path) value

/-!
The behavioral tester (`behavioral_benchmark.py`).  The external
`re.search(pattern, output, re.IGNORECASE | re.DOTALL)` call is modelled
as an oracle of type `RegexEngine`; a malformed pattern makes `re`
raise, modelled by the `error` outcome.
-/

/-- Outcome of one `re.search` call on (pattern, text): a match object,
`None`, or a raised `re.error` for a malformed pattern. -/
inductive RegexResult where
  | matched
  | noMatch
  | error
  deriving DecidableEq

/-- The external regex library: pattern → text → outcome of
`re.search` under `IGNORECASE | DOTALL`. -/
def RegexEngine : Type := String → String → RegexResult

/-- One success criterion of a behavioral test
(`success_criteria` entry: `criterion`, `description`,
`check_pattern`). -/
structure Criterion where
  criterion : String
  description : String
  check_pattern : String

/-- One behavioral test definition (an entry of
`behavioral_tests.json`). -/
structure BehavioralTest where
  id : String
  name : String
  prompt : String
  tests_feature : String
  success_criteria : List Criterion

/-- `BehavioralTester.check_criterion(output, criterion)`: search the
criterion's pattern in the output; a raised pattern error is caught,
a warning is printed, and the criterion counts as not met (`false`) —
the exception never propagates to the caller. -/
def check_criterion (re_search : RegexEngine) (output : String)
    (c : Criterion) : Bool :=
  match re_search c.check_pattern output with
  | RegexResult.matched => true
  | RegexResult.noMatch => false
  | RegexResult.error => false

/-- One entry of an evaluation's `criteria_results` list. -/
structure CriterionResult where
  criterion : String
  description : String
  passed : Bool

/-- The result dict built by `BehavioralTester.evaluate_test`. -/
structure EvalResult where
  test_id : String
  test_name : String
  criteria_results : List CriterionResult
  passed_criteria : ℕ
  total_criteria : ℕ
  passed : Bool
  output_length : ℕ
  score : ℚ

/-- `BehavioralTester.evaluate_test(test_def, output)`: check every
criterion, count the passed ones, mark the test passed when
`passed_criteria == total_criteria`, and score it
`passed_criteria / total_criteria` when the total is positive and `0`
otherwise. -/
def evaluate_test (re_search : RegexEngine) (test_def : BehavioralTest)
    (output : String) : EvalResult :=
  let crits := test_def.success_criteria
  { test_id := test_def.id
    test_name := test_def.name
    criteria_results := crits.map fun c =>
      { criterion := c.criterion
        description := c.description
        passed := check_criterion re_search output c }
    passed_criteria := crits.countP fun c => check_criterion re_search output c
    total_criteria := crits.length
    passed := (crits.countP fun c => check_criterion re_search output c)
      == crits.length
    output_length := output.length
    score :=
      if crits.length > 0 then
        ((crits.countP fun c => check_criterion re_search output c : ℕ) : ℚ)
          / (crits.length : ℚ)
      else 0 }

/-- The per-configuration summary dict built in
`BehavioralTester.generate_comparison_report` (`config_summaries`
entry).  Keys are exactly the strings the source writes; every numeric
value is a rational. -/
def config_summary (results : List EvalResult) : List (String × ℚ) :=
  [("tests_total", (results.length : ℚ)),
   ("tests_passed", ((results.filter fun r => r.passed).length : ℚ)),
   ("tests_partial",
     ((results.filter fun r => !r.passed && decide (r.score > 0)).length : ℚ)),
   ("tests_failed",
     ((results.filter fun r => decide (r.score = 0)).length : ℚ)),
   ("avg_quality_score",
     (if results.length > 0 then
        (results.map fun r => r.score).sum / (results.length : ℚ)
      else 0) * 100),
   ("pass_rate",
     if results.length > 0 then
       ((results.filter fun r => r.passed).length : ℚ)
         / (results.length : ℚ) * 100
     else 0)]

/-- The improvement-analysis block of
`BehavioralTester.generate_comparison_report`:
`baseline_score = config_summaries.get('Baseline', {}).get('avg_score', 0)`;
when `baseline_score > 0` one improvement figure
`summary['avg_score'] - baseline_score` is printed per non-Baseline
configuration (the key access is modelled with `pyGet`, whose `none`
stands for the `KeyError` Python would raise), and when not, the whole
block is omitted (`none`). -/
def improvement_section
    (config_summaries : List (String × List (String × ℚ))) :
    Option (List (String × Option ℚ)) :=
  let baseline_summary := (pyGet config_summaries "Baseline").getD []
  let baseline_score := (pyGet baseline_summary "avg_score").getD 0
  if baseline_score > 0 then
    some ((config_summaries.filter fun p => p.1 != "Baseline").map fun p =>
      (p.1, (pyGet p.2 "avg_score").map fun s => s - baseline_score))
  else none

/-!
The generic benchmark (`generic_benchmark.py`).  The filesystem is
modelled as an association list from path to parsed YAML document;
`yaml.safe_dump` + `yaml.safe_load` round-trip through the tree
unchanged, so a written file stores the tree itself.
-/

/-- A filesystem of YAML documents: path → parsed content. -/
def YamlFS : Type := List (String × Yaml)

/-- The `config` entry of a variant dict: a string (path of an external
configuration file) or an inline dict.  A missing `config` key and a
value of any other type both fail the two `isinstance` checks and are
modelled as `none` at the use site. -/
inductive ConfigSource where
  | file : String → ConfigSource
  | inlineConfig : List (String × Yaml) → ConfigSource

/-- One variant of a test definition: `name`, optional `config`
(file path or inline dict; `none` covers an absent key or a value of
another type) and the optional `config_overrides` dict of dotted path →
value. -/
structure Variant where
  name : String
  config : Option ConfigSource
  config_overrides : Option (List (String × Yaml))

/-- One scenario of a test definition: `name`, `prompt` and the
optional `expected_output_keywords` list. -/
structure Scenario where
  name : String
  prompt : String
  expected_output_keywords : Option (List String)

/-- Outcome of `GenericBenchmark.prepare_variant_config`: a returned
path together with the filesystem after the call and the number of
config files written, a returned `None` (the variant/provider pair is
skipped), or an uncaught Python exception. -/
inductive PrepResult where
  | ok (path : String) (fs : YamlFS) (writes : ℕ)
  | skip
  | crash

/-- The temp-file path
`self.results_dir / f"{variant['name']}_{provider}_temp.yaml"`. -/
def temp_config_name (results_dir : String) (variant : Variant)
    (provider : String) : String :=
  results_dir ++ "/" ++ variant.name ++ "_" ++ provider ++ "_temp.yaml"

/-- One override application `self._set_nested_key(config, key, value)`
on a loaded document: the document must be a mapping (on any other
value Python raises, modelled as `none`). -/
def applyOverride (c : Yaml) (key : String) (v : Yaml) : Option Yaml :=
  match c with
  | Yaml.mapping m => (set_nested_key m key v).map Yaml.mapping
  | _ => none

/-- The override loop
`for key, value in variant['config_overrides'].items(): ...`, applied
in the order given; the first raising application aborts (`none`). -/
def applyOverrides (c : Yaml) (ovs : List (String × Yaml)) : Option Yaml :=
  match ovs with
  | [] => some c
  | (k, v) :: rest =>
      match applyOverride c k v with
      | none => none
      | some c' => applyOverrides c' rest

/-- `GenericBenchmark.prepare_variant_config(variant, provider)`.
A string `config` is a file path: a missing file prints a warning and
returns `None`; with a `config_overrides` key the file is loaded, the
overrides are applied and the result is written to the temp path, which
is returned; without one the original path is returned untouched.  A
dict `config` is dumped to the temp path, which is returned.  Anything
else returns `None`. -/
def prepare_variant_config (fs : YamlFS) (results_dir : String)
    (variant : Variant) (provider : String) : PrepResult :=
  match variant.config with
  | some (ConfigSource.file p) =>
      match pyGet fs p with
      | none => PrepResult.skip
      | some content =>
          match variant.config_overrides with
          | some ovs =>
              match applyOverrides content ovs with
              | none => PrepResult.crash
              | some config =>
                  PrepResult.ok (temp_config_name results_dir variant provider)
                    (pySet fs (temp_config_name results_dir variant provider)
                      config) 1
          | none => PrepResult.ok p fs 0
  | some (ConfigSource.inlineConfig m) =>
      PrepResult.ok (temp_config_name results_dir variant provider)
        (pySet fs (temp_config_name results_dir variant provider)
          (Yaml.mapping m)) 1
  | none => PrepResult.skip

/-- Outcome of the external `subprocess.run([hector, 'call', agent,
prompt], timeout=60)`: either the hard wall-clock timeout fired
(`subprocess.TimeoutExpired`), or the call completed with captured
stdout, an exit code and an elapsed wall-clock duration. -/
inductive CallOutcome where
  | timeout
  | completed (stdout : String) (returncode : Int) (elapsed : ℚ)

/-- The result dict built by `GenericBenchmark.run_scenario`, one
execution record.  Fields absent from a given record (a timeout record
carries no `tokens`, `iterations` or `output`; `provider` and
`iteration` are attached later by `run_benchmark`) are `Option`s. -/
structure ExecutionRecord where
  scenario : String
  variant : String
  success : Bool
  elapsed_time : ℚ
  tokens : Option ℕ := none
  iterations : Option ℕ := none
  output : Option String := none
  error : Option String := none
  provider : Option String := none
  iteration : Option ℕ := none

/-- Python case-insensitive substring test
`keyword.lower() in output.lower()`. -/
def pyInLower (keyword output : String) : Bool :=
  decide (keyword.toLower.data <:+: output.toLower.data)

/-- `GenericBenchmark.run_scenario(variant, scenario, config_path,
agent_name)`.  The external `hector call` invocation is the
`CallOutcome` oracle; `extract_metric` is the oracle for
`GenericBenchmark._extract_metric` (a fixed regex table over the
output, `0` when no pattern matches).  On `subprocess.TimeoutExpired`
the record is `success=False`, `error='Timeout'`, `elapsed_time=60`
and nothing else; on completion, success requires exit code `0` and —
when the scenario declares `expected_output_keywords` — every keyword
as a case-insensitive substring of the output, and the record stores
the metrics and the output truncated to 500 characters. -/
def run_scenario (extract_metric : String → String → ℕ)
    (variant : Variant) (scenario : Scenario) (outcome : CallOutcome) :
    ExecutionRecord :=
  match outcome with
  | CallOutcome.timeout =>
      { scenario := scenario.name
        variant := variant.name
        success := false
        elapsed_time := 60
        error := some "Timeout" }
  | CallOutcome.completed out rc elapsed =>
      let success := rc == 0
      let success :=
        match scenario.expected_output_keywords with
        | none => success
        | some kws => success && kws.all fun kw => pyInLower kw out
      { scenario := scenario.name
        variant := variant.name
        success := success
        elapsed_time := elapsed
        tokens := some (extract_metric out "tokens")
        iterations := some (extract_metric out "iteration")
        output := some (String.mk (out.data.take 500)) }

/-- The two assignments `result['provider'] = provider` and
`result['iteration'] = i + 1` in `GenericBenchmark.run_benchmark`. -/
def attach_provider_iter (r : ExecutionRecord) (provider : String)
    (iteration : ℕ) : ExecutionRecord :=
  { r with provider := some provider, iteration := some iteration }

/-- `variant_results = [r for r in results if r['variant'] == variant]`
in `GenericBenchmark.generate_summary`. -/
def filter_variant (results : List ExecutionRecord) (v : String) :
    List ExecutionRecord :=
  results.filter fun r => r.variant == v

/-- One per-variant summary entry built by
`GenericBenchmark.generate_summary`. -/
structure VariantSummary where
  success_rate : ℚ
  avg_tokens : ℚ
  avg_time : ℚ
  total_tests : ℕ

/-- The per-variant statistics of `GenericBenchmark.generate_summary`:
success count, success rate, average of `r.get('tokens', 0)` and of
`r.get('elapsed_time', 0)` over every record of the variant (an empty
record list yields 0 everywhere). -/
def variant_summary (results : List ExecutionRecord) (v : String) :
    VariantSummary :=
  let vr := filter_variant results v
  { success_rate :=
      if vr.length > 0 then
        ((vr.filter fun r => r.success).length : ℚ) / (vr.length : ℚ)
      else 0
    avg_tokens :=
      if vr.length > 0 then
        (vr.map fun r => ((r.tokens.getD 0 : ℕ) : ℚ)).sum / (vr.length : ℚ)
      else 0
    avg_time :=
      if vr.length > 0 then
        (vr.map fun r => r.elapsed_time).sum / (vr.length : ℚ)
      else 0
    total_tests := vr.length }

/-- Deduplication keeping first occurrences, with the already-seen
names accumulated. -/
def pyDedupAux (seen : List String) : List String → List String
  | [] => []
  | x :: xs =>
      if seen.contains x then pyDedupAux seen xs
      else x :: pyDedupAux (x :: seen) xs

/-- Python `list(set(l))`; the set's iteration order is arbitrary,
modelled as first-occurrence order. -/
def pyDedup (l : List String) : List String :=
  pyDedupAux [] l

/-- `variants = list(set(r['variant'] for r in results))` in
`GenericBenchmark.generate_summary`. -/
def run_variants (results : List ExecutionRecord) : List String :=
  pyDedup (results.map fun r => r.variant)

/-- Python `max(xs, key=f)`: the first element with maximal key;
raises `ValueError` on an empty list (`none`). -/
def pyMax {α : Type} (key : α → ℚ) : List α → Option α
  | [] => none
  | x :: xs =>
      some (xs.foldl (fun best y => if key y > key best then y else best) x)

/-- Python `min(xs, key=f)`: the first element with minimal key;
raises `ValueError` on an empty list (`none`). -/
def pyMin {α : Type} (key : α → ℚ) : List α → Option α
  | [] => none
  | x :: xs =>
      some (xs.foldl (fun best y => if key y < key best then y else best) x)

/-- `self.test_def.get('metrics', {}).get('primary', 'quality')`:
the objective selector, defaulting to `quality` when `metrics` or its
`primary` key is absent. -/
def primary_metric (metrics : Option (List (String × String))) : String :=
  (pyGet (metrics.getD []) "primary").getD "quality"

/-- The best-variant recommendation at the end of
`GenericBenchmark.generate_summary`: maximal success rate for
`quality`, minimal average tokens for `cost`, minimal average time for
`speed`; any other objective value prints no recommendation
(`none`). -/
def best_variant (metrics : Option (List (String × String)))
    (results : List ExecutionRecord) : Option String :=
  match primary_metric metrics with
  | "quality" =>
      pyMax (fun v => (variant_summary results v).success_rate)
        (run_variants results)
  | "cost" =>
      pyMin (fun v => (variant_summary results v).avg_tokens)
        (run_variants results)
  | "speed" =>
      pyMin (fun v => (variant_summary results v).avg_time)
        (run_variants results)
  | _ => none

/-!
The CLI (`main` of `generic_benchmark.py`).  The test-definition
filesystem maps a path to `none` when the file exists but
`json.load` raises (caught, load returns `False`) and to a parsed
document otherwise.
-/

/-- A parsed test-definition JSON document, with the four fields the
loader checks for presence; the remaining keys are irrelevant to
validation. -/
structure TestDoc where
  test_name : Option String
  description : Option String
  variants : Option (List Variant)
  scenarios : Option (List Scenario)

/-- A filesystem of test-definition documents: path → parsed JSON, or
`none` inside when the file exists but fails to parse. -/
def DocFS : Type := List (String × Option TestDoc)

/-- `GenericBenchmark.load_test_definition()`: `False` when the path
does not exist, when parsing raises, or when one of `test_name`,
`description`, `variants`, `scenarios` is absent (checked in order,
first missing one reported); `True` otherwise. -/
def load_test_definition (fs : DocFS) (path : String) : Bool :=
  match pyGet fs path with
  | none => false
  | some none => false
  | some (some doc) =>
      doc.test_name.isSome && doc.description.isSome &&
        doc.variants.isSome && doc.scenarios.isSome

/-- Exit code of `generic_benchmark.py`'s `main()` for a given argv
(including the script name).  With fewer than two entries it prints
usage and calls `sys.exit(1)`.  Otherwise `run_benchmark()` runs: a
failed `load_test_definition` makes it return early, a successful run
returns at the end — in both cases `main` returns normally and the
interpreter exits 0. -/
def main_exit (fs : DocFS) : List String → ℕ
  | _ :: path :: _ =>
      let _ := load_test_definition fs path
      0
  | _ => 1

/-! Concrete sample inputs used to instantiate the theorems below. -/

/-- A regex oracle on which every search matches. -/
def matchAll : RegexEngine := fun _ _ => RegexResult.matched

/-- A regex oracle on which no search matches. -/
def matchNone : RegexEngine := fun _ _ => RegexResult.noMatch

/-- A regex oracle on which every pattern is malformed. -/
def matchError : RegexEngine := fun _ _ => RegexResult.error

/-- A behavioral test with no success criteria. -/
def emptyCriteriaTest : BehavioralTest :=
  { id := "t0", name := "empty", prompt := "p", tests_feature := "all"
    success_criteria := [] }

/-- A behavioral test with one success criterion. -/
def oneCriterionTest : BehavioralTest :=
  { id := "t1", name := "one", prompt := "p", tests_feature := "all"
    success_criteria :=
      [{ criterion := "c1", description := "says hello"
         check_pattern := "hello" }] }

/-- A metric oracle extracting nothing (every pattern misses: 0). -/
def extractZero : String → String → ℕ := fun _ _ => 0

/-- A variant whose config is a reference to `base.yaml`, with no
overrides. -/
def fileVariant : Variant :=
  { name := "v1", config := some (ConfigSource.file "base.yaml")
    config_overrides := none }

/-- A variant carrying an empty inline config. -/
def inlineVariant : Variant :=
  { name := "v2", config := some (ConfigSource.inlineConfig [])
    config_overrides := none }

/-- A one-file filesystem holding `base.yaml`. -/
def baseFS : YamlFS := [("base.yaml", Yaml.mapping [])]

/-- A sample scenario without expected keywords. -/
def sampleScenario : Scenario :=
  { name := "s1", prompt := "say hello", expected_output_keywords := none }

/-- A successful record of variant `A`. -/
def recA : ExecutionRecord :=
  { scenario := "s1", variant := "A", success := true, elapsed_time := 1
    tokens := some 10, iterations := some 1, output := some "ok" }

/-- A failed record of variant `B`. -/
def recB : ExecutionRecord :=
  { scenario := "s1", variant := "B", success := false, elapsed_time := 2
    tokens := some 20, iterations := some 2, output := some "no" }

/-- A metrics dict selecting the `quality` objective. -/
def qualityMetrics : Option (List (String × String)) :=
  some [("primary", "quality")]

end Hector

namespace Hector

/-! Helper lemmas shared by the claim theorems. -/

theorem check_criterion_true_iff (re_search : RegexEngine)
    (output : String) (c : Criterion) :
    check_criterion re_search output c = true ↔
      re_search c.check_pattern output = RegexResult.matched := by
  unfold check_criterion
  cases re_search c.check_pattern output <;> simp

theorem pyGet_map {α β : Type} (f : α → β)
    (l : List (String × α)) (k : String) :
    pyGet (l.map fun p => (p.1, f p.2)) k = (pyGet l k).map f := by
  induction l with
  | nil => rfl
  | cons p rest ih =>
      by_cases h : p.1 = k <;> simp [pyGet, h, ih]

theorem pyGet_config_summary_avg_score (results : List EvalResult) :
    pyGet (config_summary results) "avg_score" = none := rfl

theorem pyGet_pySet_self {α : Type} (m : List (String × α)) (k : String)
    (v : α) : pyGet (pySet m k v) k = some v := by
  induction m with
  | nil => simp [pySet, pyGet]
  | cons p rest ih =>
      by_cases h : p.1 = k
      · simp [pySet, pyGet, h]
      · cases p with
        | mk k' v' =>
            simp only at h
            simp [pySet, pyGet, h, ih]

end Hector

namespace Hector

/-- C2: for every dotted override path `a.b.c` (three segments) with
value `v` applied to an empty base configuration mapping, the result is
exactly the nested mappings `a → b → c → v` with no other top-level
keys, and the missing intermediate segments are created as empty
mappings rather than raising an error (the result is `some _`, never
the error value `none`). -/
theorem set_nested_key_empty_base (key_path a b c : String) (v : Yaml)
    (hsplit : splitDot key_path = [a, b, c]) :
    set_nested_key [] key_path v =
      some [(a, Yaml.mapping [(b, Yaml.mapping [(c, v)])])] := by
  simp [set_nested_key, hsplit, setNestedKeys, pyGet, pySet]

/-- Witness for C2 at the concrete path `"a.b.c"`. -/
theorem set_nested_key_empty_base_witness :
    splitDot "a.b.c" = ["a", "b", "c"] ∧
      set_nested_key [] "a.b.c" (Yaml.scalar "v") =
        some [("a", Yaml.mapping
          [("b", Yaml.mapping [("c", Yaml.scalar "v")])])] := by
  refine ⟨by decide, set_nested_key_empty_base "a.b.c" "a" "b" "c"
    (Yaml.scalar "v") (by decide)⟩

/-- C1 counterexample: evaluating a test that declares zero success
criteria yields score 0 but `passed = true` (the code marks it passed
because `0 == 0`), refuting the claim that `passed` is false. -/
theorem evaluate_test_zero_criteria_cex :
    (evaluate_test matchNone emptyCriteriaTest "out").total_criteria = 0 ∧
      (evaluate_test matchNone emptyCriteriaTest "out").score = 0 ∧
      (evaluate_test matchNone emptyCriteriaTest "out").passed = true :=
  ⟨rfl, rfl, rfl⟩

/-- C1 amended: for every scenario evaluation in which the scenario
declares zero success criteria, the resulting record has score exactly
0 (not 1) and `passed` equal to true (vacuously, since
`passed_criteria == total_criteria` with both 0), not false. -/
theorem evaluate_test_zero_criteria (re_search : RegexEngine)
    (test_def : BehavioralTest) (output : String)
    (h : test_def.success_criteria = []) :
    (evaluate_test re_search test_def output).score = 0 ∧
      (evaluate_test re_search test_def output).passed = true := by
  simp [evaluate_test, h]

/-- Witness for the amended C1 at a concrete zero-criteria test. -/
theorem evaluate_test_zero_criteria_witness :
    (evaluate_test matchAll emptyCriteriaTest "hello").score = 0 ∧
      (evaluate_test matchAll emptyCriteriaTest "hello").passed = true :=
  evaluate_test_zero_criteria matchAll emptyCriteriaTest "hello" rfl

/-- C6: for every scenario evaluation with at least one declared
criterion, `passed` is true iff every criterion's pattern matches the
captured output, and the score is the number of passed criteria
divided by the total number of criteria. -/
theorem evaluate_test_with_criteria (re_search : RegexEngine)
    (test_def : BehavioralTest) (output : String)
    (h : test_def.success_criteria ≠ []) :
    ((evaluate_test re_search test_def output).passed = true ↔
      ∀ c ∈ test_def.success_criteria,
        re_search c.check_pattern output = RegexResult.matched) ∧
      (evaluate_test re_search test_def output).score =
        ((test_def.success_criteria.countP fun c =>
            check_criterion re_search output c : ℕ) : ℚ)
          / (test_def.success_criteria.length : ℚ) := by
  constructor
  · simp only [evaluate_test, beq_iff_eq]
    rw [List.countP_eq_length]
    constructor
    · intro hall c hc
      exact (check_criterion_true_iff re_search output c).mp (hall c hc)
    · intro hall c hc
      exact (check_criterion_true_iff re_search output c).mpr (hall c hc)
  · have hlen : test_def.success_criteria.length > 0 :=
      List.length_pos.mpr h
    simp [evaluate_test, hlen]

/-- Witness for C6 at a concrete one-criterion test whose pattern
matches. -/
theorem evaluate_test_with_criteria_witness :
    (evaluate_test matchAll oneCriterionTest "hello there").passed = true ∧
      (evaluate_test matchAll oneCriterionTest "hello there").score = 1 := by
  have h := evaluate_test_with_criteria matchAll oneCriterionTest
    "hello there" (by simp [oneCriterionTest])
  refine ⟨h.1.mpr ?_, ?_⟩
  · intro c _
    rfl
  · rw [h.2]
    norm_num [oneCriterionTest, List.countP_cons, check_criterion, matchAll]

/-- C7: for every criterion whose matching pattern is malformed (the
regex oracle raises, outcome `error`), `check_criterion` catches the
error and returns false — it is a total function, so no error ever
reaches the caller. -/
theorem check_criterion_malformed (re_search : RegexEngine)
    (output : String) (c : Criterion)
    (h : re_search c.check_pattern output = RegexResult.error) :
    check_criterion re_search output c = false := by
  simp [check_criterion, h]

/-- Witness for C7 at a concrete malformed pattern. -/
theorem check_criterion_malformed_witness :
    check_criterion matchError "out"
      { criterion := "c1", description := "d", check_pattern := "(" }
      = false :=
  check_criterion_malformed matchError "out"
    { criterion := "c1", description := "d", check_pattern := "(" } rfl

/-- C5: for every scenario execution that exceeds the hard wall-clock
timeout, the produced record has `success = false`, is tagged
`error = 'Timeout'`, its elapsed time equals the timeout bound 60, and
no partial result is salvaged: `tokens`, `iterations` and `output` are
all absent. -/
theorem run_scenario_timeout (extract_metric : String → String → ℕ)
    (variant : Variant) (scenario : Scenario) :
    run_scenario extract_metric variant scenario CallOutcome.timeout =
      { scenario := scenario.name
        variant := variant.name
        success := false
        elapsed_time := 60
        tokens := none
        iterations := none
        output := none
        error := some "Timeout"
        provider := none
        iteration := none } := rfl

/-- C9 counterexample: invoked on a path that does not exist in the
filesystem, `main` prints an error but exits 0, refuting the claim
that a missing test-definition file exits non-zero. -/
theorem main_exit_missing_file_cex :
    pyGet ([] : DocFS) "missing.json" = none ∧
      main_exit [] ["generic_benchmark.py", "missing.json"] = 0 :=
  ⟨rfl, rfl⟩

/-- C9 amended: with no positional argument the CLI prints usage and
exits 1 (non-zero); with any path argument — including one naming a
non-existent test-definition file, whose error is only printed — and
on success, `main` returns normally and the process exits 0. -/
theorem main_exit_codes (fs : DocFS) (prog path : String)
    (rest : List String) :
    main_exit fs [] = 1 ∧ main_exit fs [prog] = 1 ∧
      main_exit fs (prog :: path :: rest) = 0 :=
  ⟨rfl, rfl, rfl⟩

/-- C3 counterexample: a variant whose config is a reference to an
existing file and which declares no overrides materializes
successfully, yet the materializer performs zero file writes and
returns the pre-existing file's own path rather than a freshly written
artifact, refuting the claim that every successful materialization
performs exactly one write of a fresh file. -/
theorem prepare_variant_config_no_write_cex :
    prepare_variant_config baseFS "results" fileVariant "openai" =
      PrepResult.ok "base.yaml" baseFS 0 := rfl

/-- C3 amended: for every variant and provider for which
materialization succeeds, if the config is inline or overrides are
declared then exactly one file is written, the returned path is the
fresh artifact scoped by variant name and provider, and that artifact
exists in the resulting filesystem; if the config is a file reference
without overrides, no file is written and the original file's path is
returned with the filesystem unchanged. -/
theorem prepare_variant_config_writes (fs : YamlFS)
    (results_dir : String) (variant : Variant) (provider : String)
    (p : String) (fs' : YamlFS) (w : ℕ)
    (h : prepare_variant_config fs results_dir variant provider =
      PrepResult.ok p fs' w) :
    ((∃ m, variant.config = some (ConfigSource.inlineConfig m)) ∨
        variant.config_overrides.isSome →
      w = 1 ∧ p = temp_config_name results_dir variant provider ∧
        (pyGet fs' p).isSome) ∧
    ((∃ q, variant.config = some (ConfigSource.file q)) ∧
        variant.config_overrides = none →
      w = 0 ∧ variant.config = some (ConfigSource.file p) ∧ fs' = fs) := by
  unfold prepare_variant_config at h
  split at h
  · rename_i q hc
    split at h
    · cases h
    · rename_i content hg
      split at h
      · rename_i ovs ho
        split at h
        · cases h
        · rename_i cfg hao
          injection h with hp hfs hw
          constructor
          · intro _
            refine ⟨hw.symm, hp.symm, ?_⟩
            rw [← hp, ← hfs, pyGet_pySet_self]
            rfl
          · rintro ⟨-, hnone⟩
            rw [ho] at hnone
            cases hnone
      · rename_i ho
        injection h with hp hfs hw
        constructor
        · rintro (⟨m, hm⟩ | hsome)
          · rw [hc] at hm
            simp at hm
          · rw [ho] at hsome
            simp at hsome
        · intro _
          refine ⟨hw.symm, ?_, hfs.symm⟩
          rw [hc, hp]
  · rename_i m hc
    injection h with hp hfs hw
    constructor
    · intro _
      refine ⟨hw.symm, hp.symm, ?_⟩
      rw [← hp, ← hfs, pyGet_pySet_self]
      rfl
    · rintro ⟨⟨q, hq⟩, -⟩
      rw [hc] at hq
      simp at hq
  · cases h

/-- Witness for the amended C3 at a concrete inline-config variant. -/
theorem prepare_variant_config_writes_witness :
    prepare_variant_config [] "results" inlineVariant "openai" =
      PrepResult.ok "results/v2_openai_temp.yaml"
        [("results/v2_openai_temp.yaml", Yaml.mapping [])] 1 ∧
      "results/v2_openai_temp.yaml" =
        temp_config_name "results" inlineVariant "openai" :=
  ⟨rfl,
    ((prepare_variant_config_writes [] "results" inlineVariant "openai"
        "results/v2_openai_temp.yaml"
        [("results/v2_openai_temp.yaml", Yaml.mapping [])] 1 rfl).1
      (Or.inl ⟨[], rfl⟩)).2.1⟩

/-- C4: the improvement-analysis block of the comparison report is
omitted on every input — also when a `Baseline` configuration with a
positive average score is present — because `baseline_score` is read
from the key `avg_score` while the summaries store the key
`avg_quality_score`, so it is always the default 0 and the `> 0` guard
never fires.  This contradicts the claim (and the code's own
"IMPROVEMENT ANALYSIS" section) that a delta is computed for each
non-baseline variant whenever a baseline is present. -/
theorem improvement_always_omitted
    (by_config : List (String × List EvalResult)) :
    improvement_section
      (by_config.map fun p => (p.1, config_summary p.2)) = none := by
  simp only [improvement_section, pyGet_map]
  cases h : pyGet by_config "Baseline" with
  | none => simp [pyGet]
  | some rs => simp [pyGet_config_summary_avg_score]

theorem foldl_max_mem {α : Type} (key : α → ℚ) (xs : List α) (acc : α) :
    xs.foldl (fun best y => if key y > key best then y else best) acc = acc ∨
      xs.foldl (fun best y => if key y > key best then y else best) acc ∈ xs := by
  induction xs generalizing acc with
  | nil => exact Or.inl rfl
  | cons x xs ih =>
      simp only [List.foldl_cons]
      rcases ih (if key x > key acc then x else acc) with h | h
      · by_cases hxy : key x > key acc
        · right
          rw [h, if_pos hxy]
          exact List.mem_cons_self x xs
        · left
          rw [h, if_neg hxy]
      · right
        exact List.mem_cons_of_mem x h

theorem foldl_max_ge {α : Type} (key : α → ℚ) (xs : List α) (acc : α) :
    key acc ≤
        key (xs.foldl (fun best y => if key y > key best then y else best) acc) ∧
      ∀ y ∈ xs, key y ≤
        key (xs.foldl (fun best y => if key y > key best then y else best) acc) := by
  induction xs generalizing acc with
  | nil => exact ⟨le_refl _, by simp⟩
  | cons x xs ih =>
      simp only [List.foldl_cons]
      obtain ⟨h1, h2⟩ := ih (if key x > key acc then x else acc)
      have hacc : key acc ≤ key (if key x > key acc then x else acc) := by
        by_cases hxy : key x > key acc
        · rw [if_pos hxy]
          exact le_of_lt hxy
        · rw [if_neg hxy]
      have hx : key x ≤ key (if key x > key acc then x else acc) := by
        by_cases hxy : key x > key acc
        · rw [if_pos hxy]
        · rw [if_neg hxy]
          exact le_of_not_lt hxy
      refine ⟨le_trans hacc h1, ?_⟩
      intro y hy
      rcases List.mem_cons.mp hy with rfl | hy'
      · exact le_trans hx h1
      · exact h2 y hy'

theorem pyMax_spec {α : Type} (key : α → ℚ) (l : List α) (b : α)
    (h : pyMax key l = some b) : b ∈ l ∧ ∀ y ∈ l, key y ≤ key b := by
  cases l with
  | nil => cases h
  | cons x xs =>
      simp only [pyMax, Option.some.injEq] at h
      subst h
      obtain ⟨h1, h2⟩ := foldl_max_ge key xs x
      constructor
      · rcases foldl_max_mem key xs x with h | h
        · rw [h]
          exact List.mem_cons_self x xs
        · exact List.mem_cons_of_mem x h
      · intro y hy
        rcases List.mem_cons.mp hy with rfl | hy'
        · exact h1
        · exact h2 y hy'

theorem pyMin_eq_pyMax_neg {α : Type} (key : α → ℚ) (l : List α) :
    pyMin key l = pyMax (fun a => -key a) l := by
  cases l with
  | nil => rfl
  | cons x xs =>
      simp only [pyMin, pyMax, Option.some.injEq]
      congr 1
      funext best y
      by_cases hxy : key y < key best
      · rw [if_pos hxy, if_pos (by simpa using hxy)]
      · rw [if_neg hxy, if_neg (by simpa using hxy)]

theorem pyMin_spec {α : Type} (key : α → ℚ) (l : List α) (b : α)
    (h : pyMin key l = some b) : b ∈ l ∧ ∀ y ∈ l, key b ≤ key y := by
  rw [pyMin_eq_pyMax_neg] at h
  obtain ⟨hm, hle⟩ := pyMax_spec (fun a => -key a) l b h
  refine ⟨hm, fun y hy => ?_⟩
  have := hle y hy
  simpa using this

/-- C8: for every completed run, the recommended variant is optimal
for the test definition's objective: it has maximal success rate under
`quality` (regardless of token or time metrics), minimal average token
count under `cost`, and minimal average elapsed time under `speed`,
among all variants appearing in the run's records. -/
theorem best_variant_optimal (metrics : Option (List (String × String)))
    (results : List ExecutionRecord) (b : String)
    (h : best_variant metrics results = some b) :
    b ∈ run_variants results ∧
      (primary_metric metrics = "quality" →
        ∀ v ∈ run_variants results,
          (variant_summary results v).success_rate ≤
            (variant_summary results b).success_rate) ∧
      (primary_metric metrics = "cost" →
        ∀ v ∈ run_variants results,
          (variant_summary results b).avg_tokens ≤
            (variant_summary results v).avg_tokens) ∧
      (primary_metric metrics = "speed" →
        ∀ v ∈ run_variants results,
          (variant_summary results b).avg_time ≤
            (variant_summary results v).avg_time) := by
  unfold best_variant at h
  split at h
  · rename_i hq
    obtain ⟨hm, hle⟩ := pyMax_spec _ _ _ h
    refine ⟨hm, fun _ v hv => hle v hv, fun hc => ?_, fun hc => ?_⟩
    · rw [hq] at hc
      exact absurd hc (by decide)
    · rw [hq] at hc
      exact absurd hc (by decide)
  · rename_i hq
    obtain ⟨hm, hle⟩ := pyMin_spec _ _ _ h
    refine ⟨hm, fun hc => ?_, fun _ v hv => hle v hv, fun hc => ?_⟩
    · rw [hq] at hc
      exact absurd hc (by decide)
    · rw [hq] at hc
      exact absurd hc (by decide)
  · rename_i hq
    obtain ⟨hm, hle⟩ := pyMin_spec _ _ _ h
    refine ⟨hm, fun hc => ?_, fun hc => ?_, fun _ v hv => hle v hv⟩
    · rw [hq] at hc
      exact absurd hc (by decide)
    · rw [hq] at hc
      exact absurd hc (by decide)
  · cases h

/-- Witness for C8: under objective `quality`, a run with variant `A`
passing (rate 1) and variant `B` failing (rate 0) recommends `A`, and
`A`'s success rate is maximal. -/
theorem best_variant_optimal_witness :
    best_variant qualityMetrics [recA, recB] = some "A" ∧
      ∀ v ∈ run_variants [recA, recB],
        (variant_summary [recA, recB] v).success_rate ≤
          (variant_summary [recA, recB] "A").success_rate := by
  have hrv : run_variants [recA, recB] = ["A", "B"] := by
    simp [run_variants, pyDedup, pyDedupAux, recA, recB]
  have hA : (variant_summary [recA, recB] "A").success_rate = 1 := by
    simp [variant_summary, filter_variant, recA, recB]
  have hB : (variant_summary [recA, recB] "B").success_rate = 0 := by
    simp [variant_summary, filter_variant, recA, recB]
  have h : best_variant qualityMetrics [recA, recB] = some "A" := by
    rw [best_variant, primary_metric]
    norm_num [qualityMetrics, pyGet, hrv, pyMax, hA, hB]
  exact ⟨h, (best_variant_optimal qualityMetrics [recA, recB] "A" h).2.1
    (by rw [primary_metric]; norm_num [qualityMetrics, pyGet])⟩

/-- C10: every per-variant summary is computed over all execution
records of that variant — a timeout record is counted in the
denominator of every average and in the total, contributes its absent
`tokens` metric as 0 (`r.get('tokens', 0)`), its `success = false` to
the success count, and its elapsed bound 60 to the time average. -/
theorem variant_summary_timeout_included
    (extract_metric : String → String → ℕ)
    (results : List ExecutionRecord) (variant : Variant)
    (scenario : Scenario) (provider : String) (iteration : ℕ) :
    variant_summary
        (results ++ [attach_provider_iter
          (run_scenario extract_metric variant scenario CallOutcome.timeout)
          provider iteration]) variant.name =
      { success_rate :=
          (((filter_variant results variant.name).filter fun r =>
            r.success).length : ℚ) /
            (((filter_variant results variant.name).length : ℚ) + 1)
        avg_tokens :=
          (((filter_variant results variant.name).map fun r =>
            ((r.tokens.getD 0 : ℕ) : ℚ)).sum + 0) /
            (((filter_variant results variant.name).length : ℚ) + 1)
        avg_time :=
          (((filter_variant results variant.name).map fun r =>
            r.elapsed_time).sum + 60) /
            (((filter_variant results variant.name).length : ℚ) + 1)
        total_tests := (filter_variant results variant.name).length + 1 } := by
  have hflt : filter_variant (results ++ [attach_provider_iter
      (run_scenario extract_metric variant scenario CallOutcome.timeout)
      provider iteration]) variant.name =
      filter_variant results variant.name ++ [attach_provider_iter
        (run_scenario extract_metric variant scenario CallOutcome.timeout)
        provider iteration] := by
    simp [filter_variant, List.filter_append, attach_provider_iter, run_scenario]
  unfold variant_summary
  rw [hflt]
  simp [attach_provider_iter, run_scenario, List.filter_append, List.map_append,
    List.sum_append, List.length_append]

end Hector
